import Mathlib

set_option linter.unusedVariables false

/-!
Verification of the notebook cell-magic module `src/utils/notebook.py`.

The module registers a cell-magic handler `mojo(line, cell)` that
  1. creates a temporary directory,
  2. writes the cell body to `<tempdir>/cell.mojo`,
  3. touches an empty `<tempdir>/__init__.mojo`,
  4. invokes the collaborator subprocess runner with
     `["run", <tempdir>/cell.mojo]` and `capture_output=True`,
  5. on return code 0 prints the decoded stdout (skipped when it strips
     to the empty string), otherwise raises `MojoCompilationError` with
     the source path, the command and both decoded streams,
  6. removes the temporary directory on every exit path (the `with`
     statement on `tempfile.TemporaryDirectory`).

We embed the handler as a pure function from its inputs (the magic line,
the cell body, the name of the temporary directory picked by `tempfile`,
and the collaborator subprocess runner) to the trace of its observable
effects together with its outcome (normal return or raised exception).
Byte streams are lists of byte values and Python `bytes.decode()` is
embedded as a strict UTF-8 decoder returning `none` where Python would
raise `UnicodeDecodeError`.
-/

/-- A byte stream: each entry is a byte value `< 256`. -/
abbrev ByteStream := List Nat

/-- The result object returned by the collaborator subprocess runner
(`subprocess_run_mojo` with `capture_output=True`), as used by the
handler: an exit code and the two captured byte streams. -/
structure CompletedProcess where
  returncode : Int
  stdout : ByteStream
  stderr : ByteStream

/-- Modelled from the spec: the collaborator error type
`MojoCompilationError` (imported from `.paths`, whose code is not part of
the sources) carrying the generated source path, the command line, and
the decoded stdout and stderr, in the positional order used at the raise
site in `src/utils/notebook.py`. -/
structure MojoCompilationError where
  mojo_path : String
  command : List String
  stdout : String
  stderr : String
deriving DecidableEq

/-- An exception escaping the handler: either the structured
`MojoCompilationError`, or the `UnicodeDecodeError` that Python's strict
`bytes.decode()` raises on a stream that is not valid UTF-8. -/
inductive PyError where
  | mojoError (e : MojoCompilationError)
  | unicodeDecodeError
deriving DecidableEq

/-- One observable effect of the handler, in execution order:
`createTempDir` is `tempfile.TemporaryDirectory()` making a fresh empty
directory; `writeFile p c` is `open(p, "w")` followed by `f.write(c)`;
`touchFile p` is `Path(p).touch()`, which creates an empty file at `p`
(no file exists there beforehand in the fresh directory);
`runSubprocess cmd cap` is the call to the collaborator runner with
command `cmd` and `capture_output=cap`; `printOut s` is
`print(s, end="")`, emitting exactly `s` to the notebook output;
`removeTempDir d` is the cleanup performed by the `with` statement,
deleting `d` and every file inside it. -/
inductive Event where
  | createTempDir (dir : String)
  | writeFile (path contents : String)
  | touchFile (path : String)
  | runSubprocess (command : List String) (captureOutput : Bool)
  | printOut (s : String)
  | removeTempDir (dir : String)
deriving DecidableEq

/-- `Path(dir) / name` for a POSIX path: join with a slash. -/
def pathJoin (dir name : String) : String := dir ++ "/" ++ name

/-- Is `b` a UTF-8 continuation byte (`0x80..0xBF`)? -/
def isContByte (b : Nat) : Bool := 0x80 ≤ b && b ≤ 0xBF

/-- Decode one UTF-8 scalar value from the front of a byte stream,
strictly: continuation bytes are range-checked so that overlong forms,
surrogates and values above `0x10FFFF` are rejected, exactly as Python's
strict `bytes.decode()` does. Returns the character and the rest. -/
def utf8DecodeChar : ByteStream → Option (Char × ByteStream)
  | [] => none
  | b0 :: rest =>
    if b0 < 0x80 then some (Char.ofNat b0, rest)
    else if 0xC2 ≤ b0 && b0 ≤ 0xDF then
      match rest with
      | b1 :: r =>
        if isContByte b1 then
          some (Char.ofNat ((b0 - 0xC0) * 0x40 + (b1 - 0x80)), r)
        else none
      | [] => none
    else if 0xE0 ≤ b0 && b0 ≤ 0xEF then
      match rest with
      | b1 :: b2 :: r =>
        let lo1 := if b0 == 0xE0 then 0xA0 else 0x80
        let hi1 := if b0 == 0xED then 0x9F else 0xBF
        if lo1 ≤ b1 && b1 ≤ hi1 && isContByte b2 then
          some (Char.ofNat ((b0 - 0xE0) * 0x1000 + (b1 - 0x80) * 0x40 + (b2 - 0x80)), r)
        else none
      | _ => none
    else if 0xF0 ≤ b0 && b0 ≤ 0xF4 then
      match rest with
      | b1 :: b2 :: b3 :: r =>
        let lo1 := if b0 == 0xF0 then 0x90 else 0x80
        let hi1 := if b0 == 0xF4 then 0x8F else 0xBF
        if lo1 ≤ b1 && b1 ≤ hi1 && isContByte b2 && isContByte b3 then
          some (Char.ofNat ((b0 - 0xF0) * 0x40000 + (b1 - 0x80) * 0x1000 +
            (b2 - 0x80) * 0x40 + (b3 - 0x80)), r)
        else none
      | _ => none
    else none

/-- Fuel-indexed loop of the decoder; the fuel starts at the length of
the stream and each step consumes at least one byte. -/
def utf8DecodeAux : Nat → ByteStream → List Char → Option (List Char)
  | 0, [], acc => some acc.reverse
  | 0, _ :: _, acc => none
  | _ + 1, [], acc => some acc.reverse
  | fuel + 1, b :: bs, acc =>
    match utf8DecodeChar (b :: bs) with
    | none => none
    | some (c, rest) => utf8DecodeAux fuel rest (c :: acc)

/-- Python `bytes.decode()` with the default strict UTF-8 codec: `some`
of the decoded text, or `none` where Python raises `UnicodeDecodeError`. -/
def utf8Decode (bs : ByteStream) : Option String :=
  (utf8DecodeAux bs.length bs []).map fun cs => String.mk cs

/-- The code points Python's `str.isspace()` accepts, which is the set
`str.strip()` removes from both ends. -/
def pySpaceCodes : List Nat :=
  [9, 10, 11, 12, 13, 28, 29, 30, 31, 32, 0x85, 0xA0, 0x1680,
   0x2000, 0x2001, 0x2002, 0x2003, 0x2004, 0x2005, 0x2006, 0x2007,
   0x2008, 0x2009, 0x200A, 0x2028, 0x2029, 0x202F, 0x205F, 0x3000]

/-- Whether `str.strip()` treats `c` as whitespace. -/
def pyIsSpace (c : Char) : Bool := pySpaceCodes.contains c.toNat

/-- Python `str.strip()` with no argument: remove leading and trailing
whitespace. -/
def pyStrip (s : String) : String :=
  String.mk (((s.data.dropWhile pyIsSpace).reverse.dropWhile pyIsSpace).reverse)

/-- The branch of the handler that follows the subprocess call: the
`if not result.returncode` statement of `mojo`. On return code 0 it
decodes stdout and prints it unless it strips to the empty string; on a
non-zero return code it decodes both streams and raises
`MojoCompilationError(mojo_path, command, stdout, stderr)`. A stream
that is not valid UTF-8 makes the corresponding `.decode()` call raise
`UnicodeDecodeError` instead. Returns the print events of the branch and
the outcome. -/
def mojoBranch (mojo_path : String) (command : List String)
    (result : CompletedProcess) : List Event × Except PyError Unit :=
  if result.returncode = 0 then
    match utf8Decode result.stdout with
    | none => ([], .error .unicodeDecodeError)
    | some stdout =>
      if (pyStrip stdout).isEmpty then ([], .ok ())
      else ([.printOut stdout], .ok ())
  else
    match utf8Decode result.stdout, utf8Decode result.stderr with
    | some so, some se =>
      ([], .error (.mojoError ⟨mojo_path, command, so, se⟩))
    | _, _ => ([], .error .unicodeDecodeError)

/-- The cell-magic handler `mojo(line, cell)` of `src/utils/notebook.py`,
embedded as a pure function. `tempdir` is the directory name chosen by
`tempfile.TemporaryDirectory()`, and `run_mojo` is the collaborator
subprocess runner `subprocess_run_mojo` (its first argument the command,
its second the `capture_output` keyword). The value is the trace of
observable effects in execution order, paired with the outcome: `.ok ()`
for a normal return (the function returns `None`) and `.error e` for an
exception propagating out. The final `removeTempDir` event is present on
every path because the `with` statement runs the directory cleanup both
on normal exit and while an exception propagates. -/
def mojo (line cell tempdir : String)
    (run_mojo : List String → Bool → CompletedProcess) :
    List Event × Except PyError Unit :=
  let mojo_path := pathJoin tempdir "cell.mojo"
  let command := ["run", mojo_path]
  let result := run_mojo command true
  let branch := mojoBranch mojo_path command result
  ([Event.createTempDir tempdir,
    Event.writeFile mojo_path cell,
    Event.touchFile (pathJoin tempdir "__init__.mojo"),
    Event.runSubprocess command true] ++ branch.1 ++
    [Event.removeTempDir tempdir],
   branch.2)

/-- The no-op fallback for `register_cell_magic` installed when importing
IPython fails: it returns its argument unchanged. -/
def register_cell_magic {α : Type} (fn : α) : α := fn

/-- Everything the handler emitted to notebook output: the concatenation,
in order, of the text of the `printOut` events of a trace. -/
def printedOutput (t : List Event) : String :=
  t.foldl (fun acc e => match e with | .printOut s => acc ++ s | _ => acc) ""

/-- The subprocess invocations recorded in a trace, each with its command
and its `capture_output` flag, in order. -/
def subprocessCalls (t : List Event) : List (List String × Bool) :=
  t.filterMap fun e =>
    match e with
    | .runSubprocess c b => some (c, b)
    | _ => none

/-- Whether an event is a subprocess invocation. -/
def isRunEvent : Event → Bool
  | .runSubprocess _ _ => true
  | _ => false

/-- Whether path `p` lies inside directory `d`. -/
def inDir (d p : String) : Bool := (d ++ "/").data.isPrefixOf p.data

/-- The files present after replaying a trace against an initially empty
file system, as `(path, contents)` pairs: `writeFile` creates or
truncates, `touchFile` creates an empty file when none exists, and
`removeTempDir d` deletes the directory `d` with every file inside it. -/
def filesAfter (t : List Event) : List (String × String) :=
  t.foldl
    (fun fs e =>
      match e with
      | .writeFile p c => (p, c) :: fs.filter (fun q => q.1 != p)
      | .touchFile p => if fs.any (fun q => q.1 == p) then fs else (p, "") :: fs
      | .removeTempDir d => fs.filter (fun q => !(inDir d q.1))
      | _ => fs)
    []

/-! ### Helper lemmas -/

theorem string_empty_append (s : String) : "" ++ s = s := rfl

theorem isPrefixOf_append_self (l t : List Char) : l.isPrefixOf (l ++ t) = true := by
  induction l with
  | nil => cases t <;> rfl
  | cons a as ih => simp [List.isPrefixOf]

theorem pathJoin_data (d n : String) : (pathJoin d n).data = (d.data ++ ['/']) ++ n.data := by
  simp [pathJoin, String.data_append]

theorem inDir_pathJoin (d n : String) : inDir d (pathJoin d n) = true := by
  have h1 : (d ++ "/").data = d.data ++ ['/'] := by simp [String.data_append]
  rw [inDir, h1, pathJoin_data]
  exact isPrefixOf_append_self _ _

theorem pathJoin_inj (d : String) {x y : String} (h : pathJoin d x = pathJoin d y) : x = y := by
  have hd : (pathJoin d x).data = (pathJoin d y).data := by rw [h]
  rw [pathJoin_data, pathJoin_data] at hd
  have := List.append_cancel_left hd
  exact String.ext this

theorem pathJoin_beq (d x y : String) : (pathJoin d x == pathJoin d y) = (x == y) := by
  by_cases h : x = y
  · subst h
    simp
  · rw [beq_eq_false_iff_ne.mpr (fun hc => h (pathJoin_inj d hc)),
      beq_eq_false_iff_ne.mpr h]

theorem mojoBranch_events (p : String) (c : List String) (r : CompletedProcess) :
    (mojoBranch p c r).1 = [] ∨ ∃ s, (mojoBranch p c r).1 = [Event.printOut s] := by
  unfold mojoBranch
  split
  · split
    · exact Or.inl rfl
    · split
      · exact Or.inl rfl
      · exact Or.inr ⟨_, rfl⟩
  · split
    · exact Or.inl rfl
    · exact Or.inl rfl

theorem mojoBranch_error_events (p : String) (c : List String) (r : CompletedProcess)
    (h : r.returncode ≠ 0) : (mojoBranch p c r).1 = [] := by
  unfold mojoBranch
  rw [if_neg h]
  split
  · rfl
  · rfl

/-! ### Claim theorems -/

/-- Claim C1 (corrected), counterexample: the claim "for every successful
exit with captured stdout X the handler emits exactly X" fails when X is
whitespace-only but non-empty. With a process exiting 0 whose stdout is
the single space byte, the decoded stdout is the one-space string, yet
the handler emits nothing (the empty string), not the space. -/
theorem mojo_stdout_relay_counterexample :
    (((fun _ _ => (⟨0, [32], []⟩ : CompletedProcess)) :
        List String → Bool → CompletedProcess)
        ["run", pathJoin "/tmp/t" "cell.mojo"] true).returncode = 0 ∧
    utf8Decode [32] = some " " ∧
    printedOutput (mojo "" "fn main(): print(1)" "/tmp/t"
      (fun _ _ => ⟨0, [32], []⟩)).1 = "" ∧
    printedOutput (mojo "" "fn main(): print(1)" "/tmp/t"
      (fun _ _ => ⟨0, [32], []⟩)).1 ≠ " " :=
  ⟨rfl, rfl, rfl, by decide⟩

/-- Claim C1 (amended): for every cell whose invocation exits
successfully (return code 0) with captured stdout decoding to X, the
handler emits exactly X to notebook output (no added trailing newline,
no other text) provided X does not strip to the empty string; an empty
or whitespace-only X is suppressed. -/
theorem mojo_stdout_relay (line cell tempdir : String)
    (run_mojo : List String → Bool → CompletedProcess) (X : String)
    (hrc : (run_mojo ["run", pathJoin tempdir "cell.mojo"] true).returncode = 0)
    (hdec : utf8Decode (run_mojo ["run", pathJoin tempdir "cell.mojo"] true).stdout =
      some X)
    (hns : (pyStrip X).isEmpty = false) :
    printedOutput (mojo line cell tempdir run_mojo).1 = X := by
  simp [mojo, mojoBranch, hrc, hdec, hns, printedOutput, string_empty_append]

/-- Witness for the amended claim C1 at a concrete input: stdout bytes
decoding to a non-whitespace string are relayed verbatim. -/
theorem mojo_stdout_relay_witness :
    printedOutput (mojo "" "fn main(): print(1)" "/tmp/t"
      (fun _ _ => ⟨0, [72, 105], []⟩)).1 = "Hi" :=
  mojo_stdout_relay "" "fn main(): print(1)" "/tmp/t"
    (fun _ _ => ⟨0, [72, 105], []⟩) "Hi" rfl rfl (by decide)

/-- Claim C2: for every cell whose invocation exits non-zero and whose
captured streams decode to `so` and `se`, the handler raises
`MojoCompilationError` populated with the generated source path, the
command `["run", <generated-path>]`, and exactly `so` and `se`. -/
theorem mojo_raises_populated_error (line cell tempdir : String)
    (run_mojo : List String → Bool → CompletedProcess) (so se : String)
    (hrc : (run_mojo ["run", pathJoin tempdir "cell.mojo"] true).returncode ≠ 0)
    (hso : utf8Decode (run_mojo ["run", pathJoin tempdir "cell.mojo"] true).stdout =
      some so)
    (hse : utf8Decode (run_mojo ["run", pathJoin tempdir "cell.mojo"] true).stderr =
      some se) :
    (mojo line cell tempdir run_mojo).2 =
      .error (.mojoError ⟨pathJoin tempdir "cell.mojo",
        ["run", pathJoin tempdir "cell.mojo"], so, se⟩) := by
  simp only [mojo, mojoBranch, hso, hse]
  rw [if_neg hrc]

/-- Witness for claim C2 at a concrete input. -/
theorem mojo_raises_populated_error_witness :
    (mojo "" "broken code" "/tmp/t"
      (fun _ _ => ⟨1, [79, 117, 116], [69, 114, 114]⟩)).2 =
      .error (.mojoError ⟨pathJoin "/tmp/t" "cell.mojo",
        ["run", pathJoin "/tmp/t" "cell.mojo"], "Out", "Err"⟩) :=
  mojo_raises_populated_error "" "broken code" "/tmp/t"
    (fun _ _ => ⟨1, [79, 117, 116], [69, 114, 114]⟩) "Out" "Err" (by decide) rfl rfl

/-- Claim C3 (corrected), counterexample: the claim "the handler raises
the structured compilation error iff the exit code is non-zero, and for
a zero exit code it returns normally and raises nothing" fails on a
process that exits 0 but emits a byte stream that is not valid UTF-8:
`result.stdout.decode()` then raises `UnicodeDecodeError`, so the
handler neither returns normally nor raises nothing. Here the exit code
is 0 and the stdout is the lone byte 255. -/
theorem mojo_error_iff_nonzero_counterexample :
    (((fun _ _ => (⟨0, [255], []⟩ : CompletedProcess)) :
        List String → Bool → CompletedProcess)
        ["run", pathJoin "/tmp/t" "cell.mojo"] true).returncode = 0 ∧
    utf8Decode [255] = none ∧
    (mojo "" "fn main(): pass" "/tmp/t" (fun _ _ => ⟨0, [255], []⟩)).2 =
      .error .unicodeDecodeError ∧
    (mojo "" "fn main(): pass" "/tmp/t" (fun _ _ => ⟨0, [255], []⟩)).2 ≠ .ok () :=
  ⟨rfl, rfl, rfl, fun hc => Except.noConfusion hc⟩

theorem mojoBranch_outcome_iff (p : String) (c : List String)
    (r : CompletedProcess) :
    ((∃ e, (mojoBranch p c r).2 = .error (.mojoError e)) ↔
        (r.returncode ≠ 0 ∧ (∃ so, utf8Decode r.stdout = some so) ∧
          (∃ se, utf8Decode r.stderr = some se))) ∧
      ((mojoBranch p c r).2 = .ok () ↔
        (r.returncode = 0 ∧ ∃ so, utf8Decode r.stdout = some so)) := by
  by_cases hrc : r.returncode = 0
  · rcases hso : utf8Decode r.stdout with _ | so
    · have hb : (mojoBranch p c r).2 = .error .unicodeDecodeError := by
        simp only [mojoBranch, hso]
        rw [if_pos hrc]
      rw [hb]
      refine ⟨⟨?_, fun h => absurd hrc h.1⟩,
        ⟨fun he => Except.noConfusion he, ?_⟩⟩
      · rintro ⟨e, he⟩
        simp at he
      · rintro ⟨_, so, hso2⟩
        cases hso2
    · have hb : (mojoBranch p c r).2 = .ok () := by
        simp only [mojoBranch, hso]
        rw [if_pos hrc]
        split <;> rfl
      rw [hb]
      refine ⟨⟨?_, fun h => absurd hrc h.1⟩,
        ⟨fun _ => ⟨hrc, so, rfl⟩, fun _ => rfl⟩⟩
      rintro ⟨e, he⟩
      cases he
  · rcases hso : utf8Decode r.stdout with _ | so <;>
      rcases hse : utf8Decode r.stderr with _ | se
    · have hb : (mojoBranch p c r).2 = .error .unicodeDecodeError := by
        simp only [mojoBranch, hso, hse]
        rw [if_neg hrc]
      rw [hb]
      refine ⟨⟨?_, ?_⟩, ⟨fun he => Except.noConfusion he, fun h => absurd h.1 hrc⟩⟩
      · rintro ⟨e, he⟩
        simp at he
      · rintro ⟨_, ⟨so, hso2⟩, _⟩
        cases hso2
    · have hb : (mojoBranch p c r).2 = .error .unicodeDecodeError := by
        simp only [mojoBranch, hso, hse]
        rw [if_neg hrc]
      rw [hb]
      refine ⟨⟨?_, ?_⟩, ⟨fun he => Except.noConfusion he, fun h => absurd h.1 hrc⟩⟩
      · rintro ⟨e, he⟩
        simp at he
      · rintro ⟨_, ⟨so, hso2⟩, _⟩
        cases hso2
    · have hb : (mojoBranch p c r).2 = .error .unicodeDecodeError := by
        simp only [mojoBranch, hso, hse]
        rw [if_neg hrc]
      rw [hb]
      refine ⟨⟨?_, ?_⟩, ⟨fun he => Except.noConfusion he, fun h => absurd h.1 hrc⟩⟩
      · rintro ⟨e, he⟩
        simp at he
      · rintro ⟨_, _, ⟨se2, hse2⟩⟩
        cases hse2
    · have hb : (mojoBranch p c r).2 = .error (.mojoError ⟨p, c, so, se⟩) := by
        simp only [mojoBranch, hso, hse]
        rw [if_neg hrc]
      rw [hb]
      refine ⟨⟨fun _ => ⟨hrc, ⟨so, rfl⟩, ⟨se, rfl⟩⟩, fun _ => ⟨⟨p, c, so, se⟩, rfl⟩⟩,
        ⟨fun he => Except.noConfusion he, fun h => absurd h.1 hrc⟩⟩

/-- Claim C3 (amended): the handler raises `MojoCompilationError` if and
only if the invoked process returns a non-zero exit code and both
captured streams decode as UTF-8, and it returns normally (returns
None) if and only if the exit code is zero and the captured stdout
decodes as UTF-8; a stream on which `bytes.decode()` fails makes the
handler raise `UnicodeDecodeError` instead. -/
theorem mojo_error_iff_nonzero (line cell tempdir : String)
    (run_mojo : List String → Bool → CompletedProcess) :
    ((∃ e, (mojo line cell tempdir run_mojo).2 = .error (.mojoError e)) ↔
        ((run_mojo ["run", pathJoin tempdir "cell.mojo"] true).returncode ≠ 0 ∧
          (∃ so, utf8Decode
            (run_mojo ["run", pathJoin tempdir "cell.mojo"] true).stdout = some so) ∧
          (∃ se, utf8Decode
            (run_mojo ["run", pathJoin tempdir "cell.mojo"] true).stderr = some se))) ∧
      ((mojo line cell tempdir run_mojo).2 = .ok () ↔
        ((run_mojo ["run", pathJoin tempdir "cell.mojo"] true).returncode = 0 ∧
          ∃ so, utf8Decode
            (run_mojo ["run", pathJoin tempdir "cell.mojo"] true).stdout = some so)) :=
  mojoBranch_outcome_iff (pathJoin tempdir "cell.mojo")
    ["run", pathJoin tempdir "cell.mojo"]
    (run_mojo ["run", pathJoin tempdir "cell.mojo"] true)

/-- Claim C4: on every execution, whatever the exit code and whatever the
captured streams, the trace ends with the removal of the temporary
directory, and replaying the whole trace against an initially empty file
system leaves no file behind: the generated source file and the module
marker are removed on every exit path. -/
theorem mojo_tempdir_cleanup (line cell tempdir : String)
    (run_mojo : List String → Bool → CompletedProcess) :
    filesAfter (mojo line cell tempdir run_mojo).1 = [] ∧
      (mojo line cell tempdir run_mojo).1.getLast? =
        some (Event.removeTempDir tempdir) := by
  rcases mojoBranch_events (pathJoin tempdir "cell.mojo")
      ["run", pathJoin tempdir "cell.mojo"]
      (run_mojo ["run", pathJoin tempdir "cell.mojo"] true) with h | ⟨s, h⟩ <;>
    exact ⟨by simp [mojo, h, filesAfter, inDir_pathJoin, pathJoin_beq],
      by simp [mojo, h, List.getLast?]⟩

/-- Claim C5: before the subprocess invocation (on the part of the trace
strictly ahead of the first run event) the handler has created exactly
two files, both inside the single temporary directory: the generated
source file `cell.mojo` whose contents are exactly the cell body, and
the empty module marker `__init__.mojo`. -/
theorem mojo_writes_inputs_before_run (line cell tempdir : String)
    (run_mojo : List String → Bool → CompletedProcess) :
    filesAfter (((mojo line cell tempdir run_mojo).1).takeWhile
        (fun e => !(isRunEvent e))) =
      [(pathJoin tempdir "__init__.mojo", ""),
       (pathJoin tempdir "cell.mojo", cell)] := by
  simp [mojo, isRunEvent, filesAfter, List.takeWhile, pathJoin_beq]

/-- Claim C6: on every execution the trace contains exactly one
subprocess invocation, whose command is exactly the two-element list
`["run", <generated source path>]` and whose `capture_output` flag is
set. -/
theorem mojo_subprocess_called_once (line cell tempdir : String)
    (run_mojo : List String → Bool → CompletedProcess) :
    subprocessCalls (mojo line cell tempdir run_mojo).1 =
      [(["run", pathJoin tempdir "cell.mojo"], true)] := by
  rcases mojoBranch_events (pathJoin tempdir "cell.mojo")
      ["run", pathJoin tempdir "cell.mojo"]
      (run_mojo ["run", pathJoin tempdir "cell.mojo"] true) with h | ⟨s, h⟩ <;>
    simp [mojo, subprocessCalls, h]

/-- Claim C7: the fallback `register_cell_magic` defined when the
IPython import fails is the identity: it returns every function
unchanged, so the decorated `mojo` handler is the same callable. -/
theorem register_cell_magic_identity :
    (∀ (α : Type) (fn : α), register_cell_magic fn = fn) ∧
      register_cell_magic mojo = mojo :=
  ⟨fun _ _ => rfl, rfl⟩

/-- Claim C8: for every successful invocation (return code 0) whose
captured stdout decodes to a string consisting only of whitespace
(which includes the empty string), the handler emits nothing at all to
notebook output. -/
theorem mojo_suppresses_whitespace_stdout (line cell tempdir : String)
    (run_mojo : List String → Bool → CompletedProcess) (X : String)
    (hrc : (run_mojo ["run", pathJoin tempdir "cell.mojo"] true).returncode = 0)
    (hdec : utf8Decode (run_mojo ["run", pathJoin tempdir "cell.mojo"] true).stdout =
      some X)
    (hws : X.data.all pyIsSpace = true) :
    printedOutput (mojo line cell tempdir run_mojo).1 = "" := by
  have h1 : X.data.dropWhile pyIsSpace = [] :=
    List.dropWhile_eq_nil_iff.mpr fun x hx => List.all_eq_true.mp hws x hx
  have h2 : (pyStrip X).isEmpty = true := by
    simp only [pyStrip, h1]
    rfl
  simp [mojo, mojoBranch, hrc, hdec, h2, printedOutput]

/-- Witness for claim C8 at a concrete input: a stdout of a space, a
newline and a tab is suppressed. -/
theorem mojo_suppresses_whitespace_stdout_witness :
    printedOutput (mojo "" "fn main(): print(1)" "/tmp/t"
      (fun _ _ => ⟨0, [32, 10, 9], []⟩)).1 = "" :=
  mojo_suppresses_whitespace_stdout "" "fn main(): print(1)" "/tmp/t"
    (fun _ _ => ⟨0, [32, 10, 9], []⟩) " \n\t" rfl rfl (by decide)

/-- Claim C9: the handler ignores the magic line argument: with the same
cell body, the same temporary directory and the same subprocess runner,
any two line arguments give the exact same trace and the exact same
outcome. -/
theorem mojo_line_irrelevant (line₁ line₂ cell tempdir : String)
    (run_mojo : List String → Bool → CompletedProcess) :
    mojo line₁ cell tempdir run_mojo = mojo line₂ cell tempdir run_mojo := rfl

/-- Claim C10: on the error path (non-zero exit code) the handler emits
nothing to notebook output, and it does not return normally: the
captured streams travel only inside the raised error. -/
theorem mojo_error_path_prints_nothing (line cell tempdir : String)
    (run_mojo : List String → Bool → CompletedProcess)
    (hrc : (run_mojo ["run", pathJoin tempdir "cell.mojo"] true).returncode ≠ 0) :
    printedOutput (mojo line cell tempdir run_mojo).1 = "" ∧
      (mojo line cell tempdir run_mojo).2 ≠ .ok () := by
  have h := mojoBranch_error_events (pathJoin tempdir "cell.mojo")
    ["run", pathJoin tempdir "cell.mojo"]
    (run_mojo ["run", pathJoin tempdir "cell.mojo"] true) hrc
  refine ⟨by simp [mojo, h, printedOutput], ?_⟩
  simp only [mojo, mojoBranch]
  rw [if_neg hrc]
  split
  · exact fun hc => Except.noConfusion hc
  · exact fun hc => Except.noConfusion hc

/-- Witness for claim C10 at a concrete input (here the failed process
even produced undecodable streams; still nothing is printed and the
handler does not return normally). -/
theorem mojo_error_path_prints_nothing_witness :
    printedOutput (mojo "" "oops" "/tmp/t"
      (fun _ _ => ⟨1, [255], [254]⟩)).1 = "" ∧
      (mojo "" "oops" "/tmp/t" (fun _ _ => ⟨1, [255], [254]⟩)).2 ≠ .ok () :=
  mojo_error_path_prints_nothing "" "oops" "/tmp/t"
    (fun _ _ => ⟨1, [255], [254]⟩) (by decide)
